import Mathlib

/-!
Shallow embedding of the WebP codec bridge (src/WebP/WebP.cpp) from the
pdn-webp FileType plugin.  The bridge is orchestration glue around the
libwebp encode/decode/mux/demux APIs; those library calls are modelled as
oracles (records of per-call results), while every branch, assignment and
early return of the bridge functions themselves is translated faithfully
from the C++ source.  Observable effects the claims talk about (writes to
out-parameters, allocator invocations, resource-release calls) are recorded
explicitly in the result structures.
-/

set_option maxHeartbeats 1000000

namespace WebPBridge

/-! Numeric constants of the libwebp headers used by WebP.cpp and WebP.h. -/

/-- WebPEncodingError value VP8_ENC_OK (encode.h). -/
def VP8_ENC_OK : Int := 0
/-- WebPEncodingError value VP8_ENC_ERROR_OUT_OF_MEMORY (encode.h). -/
def VP8_ENC_ERROR_OUT_OF_MEMORY : Int := 1
/-- WebPEncodingError value VP8_ENC_ERROR_NULL_PARAMETER (encode.h). -/
def VP8_ENC_ERROR_NULL_PARAMETER : Int := 3
/-- errVersionMismatch, defined in WebP.h line 76. -/
def errVersionMismatch : Int := -1
/-- WebPMuxError value WEBP_MUX_OK (mux_types.h). -/
def WEBP_MUX_OK : Int := 1
/-- WebPMuxError value WEBP_MUX_INVALID_ARGUMENT (mux_types.h). -/
def WEBP_MUX_INVALID_ARGUMENT : Int := -1
/-- WebPMuxError value WEBP_MUX_MEMORY_ERROR (mux_types.h). -/
def WEBP_MUX_MEMORY_ERROR : Int := -3
/-- WebPPreset value WEBP_PRESET_DEFAULT (encode.h). -/
def WEBP_PRESET_DEFAULT : Int := 0
/-- WebPPreset value WEBP_PRESET_PICTURE (encode.h). -/
def WEBP_PRESET_PICTURE : Int := 1
/-- WebPPreset value WEBP_PRESET_PHOTO (encode.h). -/
def WEBP_PRESET_PHOTO : Int := 2
/-- WebPPreset value WEBP_PRESET_DRAWING (encode.h). -/
def WEBP_PRESET_DRAWING : Int := 3
/-- WebPPreset value WEBP_PRESET_ICON (encode.h). -/
def WEBP_PRESET_ICON : Int := 4
/-- WebPPreset value WEBP_PRESET_TEXT (encode.h). -/
def WEBP_PRESET_TEXT : Int := 5
/-- WebPImageHint value WEBP_HINT_DEFAULT (encode.h). -/
def WEBP_HINT_DEFAULT : Int := 0
/-- WebPImageHint value WEBP_HINT_PICTURE (encode.h). -/
def WEBP_HINT_PICTURE : Int := 1
/-- WebPImageHint value WEBP_HINT_PHOTO (encode.h). -/
def WEBP_HINT_PHOTO : Int := 2
/-- WebPImageHint value WEBP_HINT_GRAPH (encode.h). -/
def WEBP_HINT_GRAPH : Int := 3
/-- WebPFeatureFlags bit ICCP_FLAG = 0x20 (mux_types.h). -/
def ICCP_FLAG : Nat := 32
/-- WebPFeatureFlags bit EXIF_FLAG = 0x08 (mux_types.h). -/
def EXIF_FLAG : Nat := 8
/-- WebPFeatureFlags bit XMP_FLAG = 0x04 (mux_types.h). -/
def XMP_FLAG : Nat := 4
/-- WEBP_CSP_MODE value MODE_BGRA (decode.h). -/
def MODE_BGRA : Int := 3

/-- The EncodeParams structure as consumed by WebPSave in WebP.cpp
(fields quality, preset, method, fileSize, filterStrength, filterType,
sharpness, noiseShaping).  quality is a C float; only its exact
comparison with 100 is observed, modelled over the rationals. -/
structure EncodeParams where
  quality : ℚ
  preset : Int
  method : Int
  fileSize : Int
  filterStrength : Int
  filterType : Int
  sharpness : Int
  noiseShaping : Int

/-- The fields of libwebp's WebPConfig that WebP.cpp reads or writes. -/
structure WebPConfig where
  lossless : Int
  image_hint : Int
  method : Int
  thread_level : Int
  target_size : Int
  filter_strength : Int
  filter_type : Int
  filter_sharpness : Int
  sns_strength : Int
deriving DecidableEq

/-- Result of the configuration-tuning block of WebPSave: the tweaked
WebPConfig plus the pic.use_argb field (WebPPictureInit leaves use_argb
at 0; the lossless branch sets it to 1). -/
structure TunedSetup where
  config : WebPConfig
  picUseArgb : Int
deriving DecidableEq

/-- WebPSave lines 82-117: starting from the WebPConfig produced by
WebPConfigPreset, set method and thread_level, then either the lossless
branch (quality == 100: lossless = 1, pic.use_argb = 1, image_hint from
the preset switch) or the lossy branch (optional target_size, filter
strength only when preset < WEBP_PRESET_ICON, filter type/sharpness and
sns_strength). -/
def configureEncoder (base : WebPConfig) (params : EncodeParams) : TunedSetup :=
  let cfg := { base with method := params.method, thread_level := 1 }
  if params.quality = 100 then
    let cfg := { cfg with lossless := 1 }
    let cfg :=
      if params.preset = WEBP_PRESET_PHOTO then
        { cfg with image_hint := WEBP_HINT_PHOTO }
      else if params.preset = WEBP_PRESET_PICTURE then
        { cfg with image_hint := WEBP_HINT_PICTURE }
      else if params.preset = WEBP_PRESET_DRAWING then
        { cfg with image_hint := WEBP_HINT_GRAPH }
      else cfg
    { config := cfg, picUseArgb := 1 }
  else
    let cfg := if params.fileSize > 0 then { cfg with target_size := params.fileSize } else cfg
    let cfg :=
      if params.preset < WEBP_PRESET_ICON then
        { cfg with filter_strength := params.filterStrength }
      else cfg
    let cfg := { cfg with filter_type := params.filterType,
                          filter_sharpness := params.sharpness,
                          sns_strength := params.noiseShaping }
    { config := cfg, picUseArgb := 0 }

/-- HasTransparency (WebP.cpp lines 31-48): scan rows top-to-bottom
(y from 0), pixels left-to-right (x from 0, 4 bytes per pixel), reading
only the alpha byte ptr[3] at byte offset y*stride + 4*x + 3; return true
at the first alpha byte below 255.  The buffer is modelled as a total
byte map Nat → Nat. -/
def HasTransparency (data : Nat → Nat) (width height stride : Nat) : Bool :=
  (List.range height).any fun y =>
    (List.range width).any fun x =>
      decide (data (y * stride + 4 * x + 3) < 255)

/-- Caller-supplied output allocator: size in bytes to pointer, none for a
null return.  A null allocator function pointer is Option-wrapped at the
call site. -/
abbrev AllocFn := Nat → Option Nat

/-- Per-call oracle for the libwebp encoder calls WebPSave makes.
configPreset is the WebPConfig produced by WebPConfigPreset (none when it
reports failure); the Bools are the success flags of WebPPictureInit,
WebPPictureImportBGRA, WebPPictureImportBGRX and WebPEncode; picErrorCode
is pic.error_code as read after a failed encode; wrtMem is the byte
content of the memory writer after a successful encode (wrt.size is its
length). -/
structure SaveCodec where
  configPreset : Option WebPConfig
  pictureInitOk : Bool
  importBGRAOk : Bool
  importBGRXOk : Bool
  encodeOk : Bool
  picErrorCode : Int
  wrtMem : List Nat

/-- Observable outcome of one WebPSave call: the returned status code,
the write through the output out-parameter (none = never written,
some p = written with pointer p, itself none when the allocator returned
null), the sizes requested from the allocator, whether
WebPMemoryWriterClear and WebPPictureFree were executed before returning,
and the bytes copied into the allocated output buffer. -/
structure SaveResult where
  ret : Int
  outputWrite : Option (Option Nat)
  allocCalls : List Nat
  writerCleared : Bool
  pictureFreed : Bool
  outputBytes : Option (List Nat)
deriving DecidableEq

/-- WebPSave (WebP.cpp lines 58-169), translated branch for branch:
null-allocator fast path; WebPConfigPreset/WebPPictureInit failure path
returning errVersionMismatch; the configuration tuning block
(configureEncoder); the transparency scan choosing BGRA or BGRX import,
each returning VP8_ENC_ERROR_OUT_OF_MEMORY directly on failure (note: this
early return performs no WebPMemoryWriterClear/WebPPictureFree); then the
encode: on success the allocator is asked for wrt.size bytes and the
result stored through *output before the null check, with
VP8_ENC_ERROR_OUT_OF_MEMORY when the allocator returned null, and on
encode failure pic.error_code; both encode paths clear the writer and
free the picture before returning. -/
def WebPSave (codec : SaveCodec) (outputAllocator : Option AllocFn)
    (bitmap : Nat → Nat) (width height stride : Nat)
    (params : EncodeParams) (callback : Option Unit) : SaveResult :=
  match outputAllocator with
  | none =>
      { ret := VP8_ENC_ERROR_NULL_PARAMETER, outputWrite := none, allocCalls := [],
        writerCleared := false, pictureFreed := false, outputBytes := none }
  | some alloc =>
    match codec.configPreset with
    | none =>
        { ret := errVersionMismatch, outputWrite := none, allocCalls := [],
          writerCleared := false, pictureFreed := false, outputBytes := none }
    | some base =>
      if codec.pictureInitOk = false then
        { ret := errVersionMismatch, outputWrite := none, allocCalls := [],
          writerCleared := false, pictureFreed := false, outputBytes := none }
      else
        let _setup := configureEncoder base params
        -- pic.width/height assignment, WebPMemoryWriterInit and the
        -- pic.writer/custom_ptr wiring have no further observable effect.
        let importOk :=
          if HasTransparency bitmap width height stride then codec.importBGRAOk
          else codec.importBGRXOk
        if importOk = false then
          { ret := VP8_ENC_ERROR_OUT_OF_MEMORY, outputWrite := none, allocCalls := [],
            writerCleared := false, pictureFreed := false, outputBytes := none }
        else
          -- optional progress hook registration (callback): observationally inert here
          if codec.encodeOk then
            let p := alloc codec.wrtMem.length
            match p with
            | some ptr =>
                { ret := 0, outputWrite := some (some ptr), allocCalls := [codec.wrtMem.length],
                  writerCleared := true, pictureFreed := true,
                  outputBytes := some codec.wrtMem }
            | none =>
                { ret := VP8_ENC_ERROR_OUT_OF_MEMORY, outputWrite := some none,
                  allocCalls := [codec.wrtMem.length],
                  writerCleared := true, pictureFreed := true, outputBytes := none }
          else
            { ret := codec.picErrorCode, outputWrite := none, allocCalls := [],
              writerCleared := true, pictureFreed := true, outputBytes := none }

/-- The MetaDataParams structure consumed by SetMetaData: three byte
blobs with explicit uint32 sizes (the pointer fields are modelled by the
byte lists themselves). -/
structure MetaDataParams where
  iccProfile : List Nat
  iccProfileSize : Nat
  exif : List Nat
  exifSize : Nat
  xmp : List Nat
  xmpSize : Nat

/-- Per-call oracle for the libwebp mux calls SetMetaData makes:
whether WebPMuxNew returns a handle, the WebPMuxError results of
WebPMuxSetImage, the three WebPMuxSetChunk calls and WebPMuxAssemble, and
the assembled container bytes (assembledData.size is their length). -/
structure MuxCodec where
  muxNewOk : Bool
  setImage : Int
  setICCP : Int
  setEXIF : Int
  setXMP : Int
  assemble : Int
  assembledBytes : List Nat

/-- Observable outcome of one SetMetaData call: returned WebPMuxError
code, the write through *outImage (none = never written), allocator
requests, whether WebPMuxNew produced a handle and whether WebPMuxDelete
was executed before returning, and the bytes copied into the allocated
output buffer. -/
structure MuxResult where
  ret : Int
  outImageWrite : Option (Option Nat)
  allocCalls : List Nat
  muxCreated : Bool
  muxDeleted : Bool
  outputBytes : Option (List Nat)
deriving DecidableEq

/-- SetMetaData (WebP.cpp lines 260-336), translated branch for branch:
null-allocator fast path returning WEBP_MUX_INVALID_ARGUMENT; WebPMuxNew
failure returning WEBP_MUX_MEMORY_ERROR; WebPMuxSetImage, then the three
conditional WebPMuxSetChunk calls each guarded by error == WEBP_MUX_OK
and a non-zero blob size; when all succeeded, WebPMuxAssemble followed
immediately by WebPMuxDelete, then the allocator request of
assembledData.size, the *outImage store, the null check mapping to
WEBP_MUX_MEMORY_ERROR and the copy.  When set-image or a set-chunk call
fails, control falls to the final return error with no WebPMuxDelete. -/
def SetMetaData (codec : MuxCodec) (image : List Nat)
    (outputAllocator : Option AllocFn) (metaData : MetaDataParams) : MuxResult :=
  match outputAllocator with
  | none =>
      { ret := WEBP_MUX_INVALID_ARGUMENT, outImageWrite := none, allocCalls := [],
        muxCreated := false, muxDeleted := false, outputBytes := none }
  | some alloc =>
    if codec.muxNewOk = false then
      { ret := WEBP_MUX_MEMORY_ERROR, outImageWrite := none, allocCalls := [],
        muxCreated := false, muxDeleted := false, outputBytes := none }
    else
      let error := codec.setImage
      if error = WEBP_MUX_OK then
        let error := if metaData.iccProfileSize > 0 then codec.setICCP else error
        let error :=
          if error = WEBP_MUX_OK ∧ metaData.exifSize > 0 then codec.setEXIF else error
        let error :=
          if error = WEBP_MUX_OK ∧ metaData.xmpSize > 0 then codec.setXMP else error
        if error = WEBP_MUX_OK then
          let error := codec.assemble
          -- WebPMuxDelete(mux) runs here, before the assemble error check
          if error = WEBP_MUX_OK then
            match alloc codec.assembledBytes.length with
            | some ptr =>
                { ret := WEBP_MUX_OK, outImageWrite := some (some ptr),
                  allocCalls := [codec.assembledBytes.length],
                  muxCreated := true, muxDeleted := true,
                  outputBytes := some codec.assembledBytes }
            | none =>
                { ret := WEBP_MUX_MEMORY_ERROR, outImageWrite := some none,
                  allocCalls := [codec.assembledBytes.length],
                  muxCreated := true, muxDeleted := true, outputBytes := none }
          else
            { ret := error, outImageWrite := none, allocCalls := [],
              muxCreated := true, muxDeleted := true, outputBytes := none }
        else
          -- falls through to return error: WebPMuxDelete is never executed
          { ret := error, outImageWrite := none, allocCalls := [],
            muxCreated := true, muxDeleted := false, outputBytes := none }
      else
        -- set-image failure: falls through to return error, no WebPMuxDelete
        { ret := error, outImageWrite := none, allocCalls := [],
          muxCreated := true, muxDeleted := false, outputBytes := none }

/-- The MetaDataType enumeration of WebP.h. -/
inductive MetaDataType
  | ColorProfile
  | EXIF
  | XMP
deriving DecidableEq

/-- Abstraction of an opened WebPDemuxer: the WEBP_FF_FORMAT_FLAGS value
and, per chunk id, the payload WebPDemuxGetChunk would deliver for chunk
number 1 (none when the lookup fails). -/
structure DemuxHandle where
  formatFlags : Nat
  iccpChunk : Option (List Nat)
  exifChunk : Option (List Nat)
  xmpChunk : Option (List Nat)

/-- The two fields of iter.chunk that WebP.cpp reads: the payload pointer
(none models the NULL of the memset-zeroed iterator) and the size. -/
structure WebPChunkIterator where
  chunkBytes : Option (List Nat)
  chunkSize : Nat
deriving DecidableEq

/-- The chunk iterator as left by memset(&iter, 0, ...). -/
def emptyIter : WebPChunkIterator := { chunkBytes := none, chunkSize := 0 }

/-- Effect of a WebPDemuxGetChunk call on the zeroed iterator: on success
the iterator holds the payload and its size; on failure it stays zeroed. -/
def getChunkIter (chunk : Option (List Nat)) : WebPChunkIterator :=
  match chunk with
  | some b => { chunkBytes := some b, chunkSize := b.length }
  | none => emptyIter

/-- The switch(type) block shared verbatim by GetMetaDataSize (lines
187-207) and ExtractMetaData (lines 231-251): consult the format-flag bit
for the kind and only then call WebPDemuxGetChunk with the matching
4-byte chunk id (ICCP / EXIF / XMP-with-trailing-space). -/
def lookupChunk (d : DemuxHandle) (type : MetaDataType) : WebPChunkIterator :=
  match type with
  | MetaDataType.ColorProfile =>
      if d.formatFlags &&& ICCP_FLAG ≠ 0 then getChunkIter d.iccpChunk else emptyIter
  | MetaDataType.EXIF =>
      if d.formatFlags &&& EXIF_FLAG ≠ 0 then getChunkIter d.exifChunk else emptyIter
  | MetaDataType.XMP =>
      if d.formatFlags &&& XMP_FLAG ≠ 0 then getChunkIter d.xmpChunk else emptyIter

/-- GetMetaDataSize (WebP.cpp lines 171-215): *outSize is set to 0 up
front and overwritten with iter.chunk.size only when WebPDemux returned a
demuxer.  The demuxer obtained from the input bytes is passed in as the
oracle result of WebPDemux (none = malformed container). -/
def GetMetaDataSize (demuxResult : Option DemuxHandle) (type : MetaDataType) : Nat :=
  match demuxResult with
  | none => 0
  | some d => (lookupChunk d type).chunkSize

/-- Overwrite the first bytes.length entries of dest with bytes. -/
def writePrefix (dest : List Nat) (bytes : List Nat) : List Nat :=
  bytes ++ dest.drop bytes.length

/-- memcpy_s(dest, destsz, src, count) as specified for the C runtime used
by this code (C11 Annex K / MSVC CRT): count == 0 is a no-op returning
success; a null src or destsz < count is a constraint violation that
zero-fills the first destsz bytes of dest before returning an error;
otherwise count bytes are copied from src.  (A src shorter than count
would be an out-of-bounds read in C; the model copies the bytes that
exist.) -/
def memcpy_s (dest : List Nat) (destsz : Nat) (src : Option (List Nat))
    (count : Nat) : List Nat :=
  if count = 0 then dest
  else
    match src with
    | none => writePrefix dest (List.replicate destsz 0)
    | some s =>
        if destsz < count then writePrefix dest (List.replicate destsz 0)
        else writePrefix dest (s.take count)

/-- ExtractMetaData (WebP.cpp lines 217-258): when WebPDemux fails the
caller buffer is untouched; otherwise the shared switch fills the chunk
iterator and memcpy_s(outData, outSize, iter.chunk.bytes, outSize) runs —
note that both the destination size and the count are the caller's
outSize, and that for an absent chunk the source pointer is the NULL of
the zeroed iterator.  The caller buffer is modelled as the byte list
outData (its allocated capacity being its length); the result is the
buffer content after the call. -/
def ExtractMetaData (demuxResult : Option DemuxHandle) (outData : List Nat)
    (outSize : Nat) (type : MetaDataType) : List Nat :=
  match demuxResult with
  | none => outData
  | some d =>
      let iter := lookupChunk d type
      memcpy_s outData outSize iter.chunkBytes outSize

/-- The fields of config.output that WebPLoad populates before calling
WebPDecode. -/
structure WebPDecBufferSetup where
  colorspace : Int
  is_external_memory : Int
  rgba : Nat
  size : Nat
  stride : Int
deriving DecidableEq

/-- WebPLoad lines 21-25: colorspace MODE_BGRA, external memory, the
caller buffer pointer, its capacity and stride. -/
def decBufferSetup (outData : Nat) (outSize : Nat) (outStride : Int) : WebPDecBufferSetup :=
  { colorspace := MODE_BGRA, is_external_memory := 1,
    rgba := outData, size := outSize, stride := outStride }

/-- Per-call oracle for WebPLoad's libwebp calls: the WebPInitDecoderConfig
success flag and WebPDecode's status code as a function of the input bytes
and the configured output buffer. -/
structure LoadCodec where
  initOk : Bool
  decode : List Nat → WebPDecBufferSetup → Int

/-- WebPLoad (WebP.cpp lines 11-29): errVersionMismatch when
WebPInitDecoderConfig fails, otherwise the WebPDecode status returned
unchanged after configuring the output buffer. -/
def WebPLoad (codec : LoadCodec) (data : List Nat) (outData : Nat)
    (outSize : Nat) (outStride : Int) : Int :=
  if codec.initOk = false then errVersionMismatch
  else codec.decode data (decBufferSetup outData outSize outStride)

/-! Shared concrete fixtures for witnesses and counterexamples. -/

/-- An all-zero WebPConfig, matching the WebPConfigInit defaults for the
fields relevant here (lossless = 0, image_hint = WEBP_HINT_DEFAULT). -/
def zeroConfig : WebPConfig :=
  { lossless := 0, image_hint := 0, method := 0, thread_level := 0,
    target_size := 0, filter_strength := 0, filter_type := 0,
    filter_sharpness := 0, sns_strength := 0 }

/-- Lossy encode parameters used in concrete instantiations. -/
def lossyParams : EncodeParams :=
  { quality := 50, preset := 0, method := 4, fileSize := 0,
    filterStrength := 10, filterType := 0, sharpness := 0, noiseShaping := 50 }

/-- A metadata bundle with all three blobs absent. -/
def emptyMeta : MetaDataParams :=
  { iccProfile := [], iccProfileSize := 0, exif := [], exifSize := 0,
    xmp := [], xmpSize := 0 }

/-- A demux handle with no format flags and no chunks. -/
def bareDemux : DemuxHandle :=
  { formatFlags := 0, iccpChunk := none, exifChunk := none, xmpChunk := none }

/-- C5: the transparency scan returns true iff some pixel of the
width-by-height region has its alpha byte (offset 3 of its 4-byte pixel,
at byte index y*stride + 4*x + 3) strictly below 255; for a buffer whose
alpha bytes are all 255 it returns false. -/
theorem C5_transparency_scan (data : Nat → Nat) (width height stride : Nat) :
    (HasTransparency data width height stride = true
      ↔ ∃ y, y < height ∧ ∃ x, x < width ∧ data (y * stride + 4 * x + 3) < 255)
    ∧ ((∀ y, y < height → ∀ x, x < width → data (y * stride + 4 * x + 3) = 255)
        → HasTransparency data width height stride = false) := by
  have hiff : HasTransparency data width height stride = true
      ↔ ∃ y, y < height ∧ ∃ x, x < width ∧ data (y * stride + 4 * x + 3) < 255 := by
    simp [HasTransparency, List.any_eq_true, List.mem_range]
  refine ⟨hiff, fun hall => ?_⟩
  rw [Bool.eq_false_iff]
  intro htrue
  obtain ⟨y, hy, x, hx, hlt⟩ := hiff.mp htrue
  rw [hall y hy x hx] at hlt
  exact lt_irrefl _ hlt

/-- C5 witness: the scan applied to a concrete 2-by-2 all-opaque buffer
reports no transparency, by the second conjunct of C5_transparency_scan. -/
theorem C5_transparency_scan_opaque_instance :
    HasTransparency (fun _ => 255) 2 2 8 = false :=
  (C5_transparency_scan (fun _ => 255) 2 2 8).2 (fun _ _ _ _ => rfl)

/-- C6: with a null output allocator, WebPSave returns
VP8_ENC_ERROR_NULL_PARAMETER and SetMetaData returns
WEBP_MUX_INVALID_ARGUMENT, immediately: no allocator call, no mux or
picture resource acquired, and no write through the output
out-parameter. -/
theorem C6_null_allocator (codecS : SaveCodec) (bitmap : Nat → Nat)
    (w h s : Nat) (params : EncodeParams) (cb : Option Unit)
    (codecM : MuxCodec) (image : List Nat) (md : MetaDataParams) :
    WebPSave codecS none bitmap w h s params cb
      = { ret := VP8_ENC_ERROR_NULL_PARAMETER, outputWrite := none,
          allocCalls := [], writerCleared := false, pictureFreed := false,
          outputBytes := none }
    ∧ SetMetaData codecM image none md
      = { ret := WEBP_MUX_INVALID_ARGUMENT, outImageWrite := none,
          allocCalls := [], muxCreated := false, muxDeleted := false,
          outputBytes := none } :=
  ⟨rfl, rfl⟩

/-- C9: WebPLoad returns errVersionMismatch exactly when
WebPInitDecoderConfig fails, otherwise hands back WebPDecode's status code
unchanged for the configured BGRA external output buffer; in particular it
returns 0 whenever the decode reports 0. -/
theorem C9_load_status (codec : LoadCodec) (data : List Nat)
    (outData outSize : Nat) (outStride : Int) :
    (codec.initOk = false →
      WebPLoad codec data outData outSize outStride = errVersionMismatch)
    ∧ (codec.initOk = true →
      WebPLoad codec data outData outSize outStride
        = codec.decode data (decBufferSetup outData outSize outStride))
    ∧ (codec.initOk = true →
      codec.decode data (decBufferSetup outData outSize outStride) = 0 →
      WebPLoad codec data outData outSize outStride = 0) := by
  refine ⟨fun h => ?_, fun h => ?_, fun h h0 => ?_⟩ <;>
    simp [WebPLoad, h] <;> simp [h0]

/-- C9 witness: a concrete decoder whose init succeeds and whose decode
reports 0 makes WebPLoad return 0, by C9_load_status. -/
theorem C9_load_status_ok_instance :
    WebPLoad { initOk := true, decode := fun _ _ => 0 } [] 0 0 0 = 0 :=
  (C9_load_status { initOk := true, decode := fun _ _ => 0 } [] 0 0 0).2.2 rfl rfl

/-- C1: WebPSave does NOT release its temporary resources on the failed
picture-import exit path.  Concrete run: allocator present, preset config
and picture init succeed, the 1-by-1 bitmap is transparent (alpha byte 0)
so the BGRA import is chosen, and the import fails; the call returns
VP8_ENC_ERROR_OUT_OF_MEMORY without having executed WebPMemoryWriterClear
or WebPPictureFree, contradicting the release-on-every-exit-path claim. -/
theorem C1_import_failure_skips_release :
    WebPSave
      { configPreset := some zeroConfig, pictureInitOk := true,
        importBGRAOk := false, importBGRXOk := true, encodeOk := true,
        picErrorCode := 0, wrtMem := [] }
      (some (fun _ => some 1)) (fun _ => 0) 1 1 4 lossyParams none
    = { ret := VP8_ENC_ERROR_OUT_OF_MEMORY, outputWrite := none,
        allocCalls := [], writerCleared := false, pictureFreed := false,
        outputBytes := none } := by
  decide

/-- C2: SetMetaData does NOT release the multiplexer when setting the
image payload fails.  Concrete run: allocator present, WebPMuxNew
succeeds, WebPMuxSetImage returns WEBP_MUX_INVALID_ARGUMENT; the call
returns that error with the mux created but never deleted, contradicting
the release-on-every-path claim. -/
theorem C2_set_image_failure_skips_delete :
    SetMetaData
      { muxNewOk := true, setImage := WEBP_MUX_INVALID_ARGUMENT,
        setICCP := WEBP_MUX_OK, setEXIF := WEBP_MUX_OK,
        setXMP := WEBP_MUX_OK, assemble := WEBP_MUX_OK, assembledBytes := [] }
      [] (some (fun _ => some 1)) emptyMeta
    = { ret := WEBP_MUX_INVALID_ARGUMENT, outImageWrite := none,
        allocCalls := [], muxCreated := true, muxDeleted := false,
        outputBytes := none } := by
  decide

/-- C3 counterexample: on a well-formed container whose EXIF flag is
absent, ExtractMetaData with a caller capacity of 1 does modify the
caller's buffer (memcpy_s zero-fills it because the chunk-iterator source
pointer is null), so extraction is not a no-op as claimed, even though
GetMetaDataSize correctly reports 0. -/
theorem C3_absent_chunk_extract_modifies_buffer :
    GetMetaDataSize (some bareDemux) MetaDataType.EXIF = 0
    ∧ ExtractMetaData (some bareDemux) [7] 1 MetaDataType.EXIF ≠ [7] := by
  decide

/-- C3 amended: on a malformed container (demux open fails) both
operations are untouched-buffer no-ops reporting size 0; when the
container opens but the requested kind's flag/chunk is absent,
GetMetaDataSize still reports 0 and ExtractMetaData copies no chunk
bytes — its memcpy_s call, having a null source, leaves the buffer
untouched when the caller capacity is 0 and zero-fills its first outSize
bytes otherwise.  Neither operation can signal an error (both return
void). -/
theorem C3_absent_metadata (d : DemuxHandle) (outData : List Nat)
    (outSize : Nat) (t : MetaDataType)
    (habsent : (lookupChunk d t).chunkBytes = none) :
    (GetMetaDataSize none t = 0
      ∧ ExtractMetaData none outData outSize t = outData)
    ∧ (GetMetaDataSize (some d) t = 0
      ∧ ExtractMetaData (some d) outData outSize t
          = if outSize = 0 then outData
            else writePrefix outData (List.replicate outSize 0)) := by
  have hgc : ∀ c : Option (List Nat),
      (getChunkIter c).chunkBytes = none → (getChunkIter c).chunkSize = 0 := by
    intro c hc
    cases c with
    | none => rfl
    | some b => simp [getChunkIter] at hc
  have hsize : (lookupChunk d t).chunkSize = 0 := by
    cases t with
    | ColorProfile =>
        by_cases hf : d.formatFlags &&& ICCP_FLAG ≠ 0
        · simp only [lookupChunk, if_pos hf] at habsent ⊢
          exact hgc _ habsent
        · simp only [lookupChunk, if_neg hf]
          rfl
    | EXIF =>
        by_cases hf : d.formatFlags &&& EXIF_FLAG ≠ 0
        · simp only [lookupChunk, if_pos hf] at habsent ⊢
          exact hgc _ habsent
        · simp only [lookupChunk, if_neg hf]
          rfl
    | XMP =>
        by_cases hf : d.formatFlags &&& XMP_FLAG ≠ 0
        · simp only [lookupChunk, if_pos hf] at habsent ⊢
          exact hgc _ habsent
        · simp only [lookupChunk, if_neg hf]
          rfl
  refine ⟨⟨rfl, rfl⟩, ?_, ?_⟩
  · simp [GetMetaDataSize, hsize]
  · simp only [ExtractMetaData, habsent, memcpy_s]

/-- C3 witness: C3_absent_metadata applied to the concrete flagless demux
handle, an XMP query with caller capacity 0 and a malformed-container
ICC query: sizes are 0 and the buffer [7] is untouched in both cases. -/
theorem C3_absent_metadata_instance :
    (GetMetaDataSize none MetaDataType.ColorProfile = 0
      ∧ ExtractMetaData none [7] 0 MetaDataType.ColorProfile = [7])
    ∧ (GetMetaDataSize (some bareDemux) MetaDataType.XMP = 0
      ∧ ExtractMetaData (some bareDemux) [7] 0 MetaDataType.XMP
          = if (0 : Nat) = 0 then [7]
            else writePrefix [7] (List.replicate 0 0)) :=
  ⟨(C3_absent_metadata bareDemux [7] 0 MetaDataType.ColorProfile (by decide)).1,
   (C3_absent_metadata bareDemux [7] 0 MetaDataType.XMP (by decide)).2⟩

/-- C4 counterexample: with quality 50 (lossy branch) and the TEXT preset
(value 5, which is not the icon preset, value 4), the caller's filter
strength 10 is NOT applied: the configuration keeps the preset default 0,
refuting "applied for every preset other than the icon preset". -/
theorem C4_text_preset_suppresses_filter_strength :
    (configureEncoder zeroConfig
      { quality := 50, preset := WEBP_PRESET_TEXT, method := 0, fileSize := 0,
        filterStrength := 10, filterType := 0, sharpness := 0,
        noiseShaping := 0 }).config.filter_strength = 0
    ∧ WEBP_PRESET_TEXT ≠ WEBP_PRESET_ICON ∧ (10 : Int) ≠ 0 := by
  refine ⟨?_, by decide, by decide⟩
  rfl

/-- C4 amended: in the lossy branch (quality not 100), the caller's
filter strength is applied exactly for presets strictly below the icon
preset in the WebPPreset enumeration (default, picture, photo, drawing);
for the icon preset and every preset at or beyond it (icon, text) the
configuration keeps the preset-default filter strength. -/
theorem C4_filter_strength_below_icon (base : WebPConfig) (params : EncodeParams)
    (hq : params.quality ≠ 100) :
    (params.preset < WEBP_PRESET_ICON →
      (configureEncoder base params).config.filter_strength = params.filterStrength)
    ∧ (WEBP_PRESET_ICON ≤ params.preset →
      (configureEncoder base params).config.filter_strength = base.filter_strength) := by
  constructor
  · intro hlt
    simp [configureEncoder, hq, hlt]
  · intro hge
    have hnlt : ¬ params.preset < WEBP_PRESET_ICON := not_lt.mpr hge
    simp only [configureEncoder, hq, hnlt, if_false, ite_false]
    split <;> rfl

/-- C4 witness: C4_filter_strength_below_icon at quality 50 with the
drawing preset (3 < 4): the filter strength 10 lands in the
configuration. -/
theorem C4_filter_strength_below_icon_instance :
    (configureEncoder zeroConfig
      { quality := 50, preset := WEBP_PRESET_DRAWING, method := 0, fileSize := 0,
        filterStrength := 10, filterType := 0, sharpness := 0,
        noiseShaping := 0 }).config.filter_strength = 10 :=
  (C4_filter_strength_below_icon zeroConfig
      { quality := 50, preset := WEBP_PRESET_DRAWING, method := 0, fileSize := 0,
        filterStrength := 10, filterType := 0, sharpness := 0,
        noiseShaping := 0 } (by decide)).1 (by decide)

/-- C8: starting from a preset configuration with the library defaults
for the untouched fields (lossless 0, image hint unset), WebPSave's
tuning block enables lossless mode exactly when quality equals 100; in
that mode the photo, picture and drawing presets each select a distinct
internal content hint (WEBP_HINT_PHOTO, WEBP_HINT_PICTURE,
WEBP_HINT_GRAPH) and every other preset leaves the hint unset; when
quality is not 100 lossless stays off and the lossy tuning parameters
(filter type, sharpness, noise shaping, the optional positive target
size, and the filter strength for presets below icon) are applied. -/
theorem C8_lossless_and_hints (base : WebPConfig) (params : EncodeParams)
    (h0 : base.lossless = 0) (h1 : base.image_hint = WEBP_HINT_DEFAULT) :
    ((configureEncoder base params).config.lossless = 1 ↔ params.quality = 100)
    ∧ (params.quality = 100 →
        (params.preset = WEBP_PRESET_PHOTO →
          (configureEncoder base params).config.image_hint = WEBP_HINT_PHOTO)
        ∧ (params.preset = WEBP_PRESET_PICTURE →
          (configureEncoder base params).config.image_hint = WEBP_HINT_PICTURE)
        ∧ (params.preset = WEBP_PRESET_DRAWING →
          (configureEncoder base params).config.image_hint = WEBP_HINT_GRAPH)
        ∧ (params.preset ≠ WEBP_PRESET_PHOTO → params.preset ≠ WEBP_PRESET_PICTURE →
            params.preset ≠ WEBP_PRESET_DRAWING →
          (configureEncoder base params).config.image_hint = WEBP_HINT_DEFAULT))
    ∧ (WEBP_HINT_PHOTO ≠ WEBP_HINT_PICTURE ∧ WEBP_HINT_PHOTO ≠ WEBP_HINT_GRAPH
        ∧ WEBP_HINT_PICTURE ≠ WEBP_HINT_GRAPH ∧ WEBP_HINT_PHOTO ≠ WEBP_HINT_DEFAULT
        ∧ WEBP_HINT_PICTURE ≠ WEBP_HINT_DEFAULT ∧ WEBP_HINT_GRAPH ≠ WEBP_HINT_DEFAULT)
    ∧ (params.quality ≠ 100 →
        (configureEncoder base params).config.lossless = 0
        ∧ (configureEncoder base params).config.filter_type = params.filterType
        ∧ (configureEncoder base params).config.filter_sharpness = params.sharpness
        ∧ (configureEncoder base params).config.sns_strength = params.noiseShaping
        ∧ (0 < params.fileSize →
            (configureEncoder base params).config.target_size = params.fileSize)
        ∧ (params.preset < WEBP_PRESET_ICON →
            (configureEncoder base params).config.filter_strength
              = params.filterStrength)) := by
  by_cases hq : params.quality = 100
  · refine ⟨⟨fun _ => hq, fun _ => ?_⟩, fun _ => ⟨fun hp => ?_, fun hp => ?_, fun hp => ?_,
      fun hp1 hp2 hp3 => ?_⟩, by decide, fun hne => absurd hq hne⟩
    · simp only [configureEncoder, hq, ite_true, if_true]
      split <;> (try split) <;> (try split) <;> rfl
    · simp [configureEncoder, hq, hp]
    · simp [configureEncoder, hq, hp, WEBP_PRESET_PICTURE, WEBP_PRESET_PHOTO,
        WEBP_PRESET_DRAWING, WEBP_HINT_PICTURE]
    · simp [configureEncoder, hq, hp, WEBP_PRESET_PICTURE, WEBP_PRESET_PHOTO,
        WEBP_PRESET_DRAWING, WEBP_HINT_GRAPH]
    · simp [configureEncoder, hq, hp1, hp2, hp3, h1]
  · refine ⟨⟨fun hl => ?_, fun hq2 => absurd hq2 hq⟩, fun hq2 => absurd hq2 hq,
      by decide, fun _ => ⟨?_, ?_, ?_, ?_, fun hf => ?_, fun hlt => ?_⟩⟩
    · exfalso
      have : (configureEncoder base params).config.lossless = 0 := by
        simp only [configureEncoder, hq, ite_false, if_false]
        split <;> split <;> simp [h0]
      rw [this] at hl
      exact absurd hl (by decide)
    · simp only [configureEncoder, hq, ite_false, if_false]
      split <;> split <;> simp [h0]
    · simp only [configureEncoder, hq, ite_false, if_false]
    · simp only [configureEncoder, hq, ite_false, if_false]
    · simp only [configureEncoder, hq, ite_false, if_false]
    · simp only [configureEncoder, hq, ite_false, if_false, hf, ite_true, if_true]
      try split <;> rfl
    · simp [configureEncoder, hq, hlt]

/-- C8 witness: at quality 100 with the drawing preset and the
all-default base configuration, lossless mode is on (converse direction
instantiated through the iff) and the hint is WEBP_HINT_GRAPH; the
distinctness conjunct holds; all by C8_lossless_and_hints. -/
theorem C8_lossless_and_hints_instance :
    (configureEncoder zeroConfig
      { quality := 100, preset := WEBP_PRESET_DRAWING, method := 0, fileSize := 0,
        filterStrength := 0, filterType := 0, sharpness := 0,
        noiseShaping := 0 }).config.image_hint = WEBP_HINT_GRAPH :=
  ((C8_lossless_and_hints zeroConfig
      { quality := 100, preset := WEBP_PRESET_DRAWING, method := 0, fileSize := 0,
        filterStrength := 0, filterType := 0, sharpness := 0,
        noiseShaping := 0 } rfl rfl).2.1 rfl).2.2.1 rfl

/-- C7: when the encode (resp. container assembly) itself succeeds but
the caller-supplied allocator returns null for the requested size,
WebPSave returns VP8_ENC_ERROR_OUT_OF_MEMORY and SetMetaData returns
WEBP_MUX_MEMORY_ERROR. -/
theorem C7_allocator_failure_oom
    (codecS : SaveCodec) (alloc : AllocFn) (bitmap : Nat → Nat) (w h s : Nat)
    (params : EncodeParams) (cb : Option Unit) (base : WebPConfig)
    (hcfg : codecS.configPreset = some base) (hpic : codecS.pictureInitOk = true)
    (himpA : codecS.importBGRAOk = true) (himpX : codecS.importBGRXOk = true)
    (henc : codecS.encodeOk = true) (hnull : alloc codecS.wrtMem.length = none)
    (codecM : MuxCodec) (image : List Nat) (allocM : AllocFn) (md : MetaDataParams)
    (hmux : codecM.muxNewOk = true) (himg : codecM.setImage = WEBP_MUX_OK)
    (hicc : codecM.setICCP = WEBP_MUX_OK) (hexif : codecM.setEXIF = WEBP_MUX_OK)
    (hxmp : codecM.setXMP = WEBP_MUX_OK) (hasm : codecM.assemble = WEBP_MUX_OK)
    (hnullM : allocM codecM.assembledBytes.length = none) :
    (WebPSave codecS (some alloc) bitmap w h s params cb).ret
      = VP8_ENC_ERROR_OUT_OF_MEMORY
    ∧ (SetMetaData codecM image (some allocM) md).ret = WEBP_MUX_MEMORY_ERROR := by
  constructor
  · cases ht : HasTransparency bitmap w h s with
    | true => simp [WebPSave, hcfg, hpic, ht, himpA, henc, hnull]
    | false => simp [WebPSave, hcfg, hpic, ht, himpX, henc, hnull]
  · simp only [SetMetaData, hmux, himg, hicc, hexif, hxmp, hasm, hnullM]
    simp

/-- C7 witness: C7_allocator_failure_oom at a concrete encoder oracle, a
concrete mux oracle and the always-null allocator. -/
theorem C7_allocator_failure_oom_instance :
    (WebPSave
      { configPreset := some zeroConfig, pictureInitOk := true,
        importBGRAOk := true, importBGRXOk := true, encodeOk := true,
        picErrorCode := 0, wrtMem := [9, 9] }
      (some (fun _ => none)) (fun _ => 255) 1 1 4 lossyParams none).ret
      = VP8_ENC_ERROR_OUT_OF_MEMORY
    ∧ (SetMetaData
      { muxNewOk := true, setImage := WEBP_MUX_OK, setICCP := WEBP_MUX_OK,
        setEXIF := WEBP_MUX_OK, setXMP := WEBP_MUX_OK, assemble := WEBP_MUX_OK,
        assembledBytes := [1, 2, 3] }
      [] (some (fun _ => none)) emptyMeta).ret = WEBP_MUX_MEMORY_ERROR :=
  C7_allocator_failure_oom
    { configPreset := some zeroConfig, pictureInitOk := true,
      importBGRAOk := true, importBGRXOk := true, encodeOk := true,
      picErrorCode := 0, wrtMem := [9, 9] }
    (fun _ => none) (fun _ => 255) 1 1 4 lossyParams none zeroConfig
    rfl rfl rfl rfl rfl rfl
    { muxNewOk := true, setImage := WEBP_MUX_OK, setICCP := WEBP_MUX_OK,
      setEXIF := WEBP_MUX_OK, setXMP := WEBP_MUX_OK, assemble := WEBP_MUX_OK,
      assembledBytes := [1, 2, 3] }
    [] (fun _ => none) emptyMeta rfl rfl rfl rfl rfl rfl rfl

/-- C10: WebPSave writes through the output out-parameter only on runs
whose encode step succeeded: the null-allocator, version-mismatch
(preset-config or picture-init failure), picture-import-failure and
encode-failure exits all leave *output untouched, and any run that did
write *output had a present allocator, successful initialization, a
successful import and a successful encode. -/
theorem C10_output_untouched_until_encode
    (codec : SaveCodec) (alloc : AllocFn) (bitmap : Nat → Nat) (w h s : Nat)
    (params : EncodeParams) (cb : Option Unit) :
    (WebPSave codec none bitmap w h s params cb).outputWrite = none
    ∧ (codec.configPreset = none →
        (WebPSave codec (some alloc) bitmap w h s params cb).outputWrite = none)
    ∧ (codec.pictureInitOk = false →
        (WebPSave codec (some alloc) bitmap w h s params cb).outputWrite = none)
    ∧ (HasTransparency bitmap w h s = true → codec.importBGRAOk = false →
        (WebPSave codec (some alloc) bitmap w h s params cb).outputWrite = none)
    ∧ (HasTransparency bitmap w h s = false → codec.importBGRXOk = false →
        (WebPSave codec (some alloc) bitmap w h s params cb).outputWrite = none)
    ∧ (codec.encodeOk = false →
        (WebPSave codec (some alloc) bitmap w h s params cb).outputWrite = none)
    ∧ ((WebPSave codec (some alloc) bitmap w h s params cb).outputWrite ≠ none →
        codec.configPreset.isSome = true ∧ codec.pictureInitOk = true
        ∧ (if HasTransparency bitmap w h s then codec.importBGRAOk
           else codec.importBGRXOk) = true
        ∧ codec.encodeOk = true) := by
  refine ⟨rfl, fun hcfg => ?_, fun hpic => ?_, fun ht himp => ?_, fun ht himp => ?_,
    fun henc => ?_, fun hwrote => ?_⟩
  · simp [WebPSave, hcfg]
  · cases hc : codec.configPreset with
    | none => simp [WebPSave, hc]
    | some base => simp [WebPSave, hc, hpic]
  · cases hc : codec.configPreset with
    | none => simp [WebPSave, hc]
    | some base =>
        cases hp : codec.pictureInitOk with
        | false => simp [WebPSave, hc, hp]
        | true => simp [WebPSave, hc, hp, ht, himp]
  · cases hc : codec.configPreset with
    | none => simp [WebPSave, hc]
    | some base =>
        cases hp : codec.pictureInitOk with
        | false => simp [WebPSave, hc, hp]
        | true => simp [WebPSave, hc, hp, ht, himp]
  · cases hc : codec.configPreset with
    | none => simp [WebPSave, hc]
    | some base =>
        cases hp : codec.pictureInitOk with
        | false => simp [WebPSave, hc, hp]
        | true =>
            cases ht : HasTransparency bitmap w h s with
            | true =>
                cases hi : codec.importBGRAOk with
                | false => simp [WebPSave, hc, hp, ht, hi]
                | true => simp [WebPSave, hc, hp, ht, hi, henc]
            | false =>
                cases hi : codec.importBGRXOk with
                | false => simp [WebPSave, hc, hp, ht, hi]
                | true => simp [WebPSave, hc, hp, ht, hi, henc]
  · rcases hc : codec.configPreset with _ | base
    · exact absurd (by simp [WebPSave, hc]) hwrote
    · cases hp : codec.pictureInitOk with
      | false => exact absurd (by simp [WebPSave, hc, hp]) hwrote
      | true =>
          cases ht : HasTransparency bitmap w h s with
          | true =>
              cases hi : codec.importBGRAOk with
              | false => exact absurd (by simp [WebPSave, hc, hp, ht, hi]) hwrote
              | true =>
                  cases he : codec.encodeOk with
                  | false =>
                      exact absurd (by simp [WebPSave, hc, hp, ht, hi, he]) hwrote
                  | true => exact ⟨by simp [hc], rfl, by simp, rfl⟩
          | false =>
              cases hi : codec.importBGRXOk with
              | false => exact absurd (by simp [WebPSave, hc, hp, ht, hi]) hwrote
              | true =>
                  cases he : codec.encodeOk with
                  | false =>
                      exact absurd (by simp [WebPSave, hc, hp, ht, hi, he]) hwrote
                  | true => exact ⟨by simp [hc], rfl, by simp, rfl⟩

/-- C10 witness: C10_output_untouched_until_encode's encode-failure
conjunct at a concrete run whose encode fails: the out-parameter is
untouched. -/
theorem C10_output_untouched_until_encode_instance :
    (WebPSave
      { configPreset := some zeroConfig, pictureInitOk := true,
        importBGRAOk := true, importBGRXOk := true, encodeOk := false,
        picErrorCode := 5, wrtMem := [] }
      (some (fun _ => some 1)) (fun _ => 255) 1 1 4 lossyParams none).outputWrite
      = none :=
  (C10_output_untouched_until_encode
      { configPreset := some zeroConfig, pictureInitOk := true,
        importBGRAOk := true, importBGRXOk := true, encodeOk := false,
        picErrorCode := 5, wrtMem := [] }
      (fun _ => some 1) (fun _ => 255) 1 1 4 lossyParams none).2.2.2.2.2.1 rfl

end WebPBridge
